import Mathlib

/-!
Verification of the terraform-provider-azidentity provider internals.

This file gives a shallow embedding of the Go code under
`internal/provider` (`azidentity_credentials.go`, `models.go`,
`ephemeral_token.go`): terraform framework values become inductive types,
the vendor SDK constructors and the operating system (environment
variables, file reads) become explicit oracle records, and the provider
functions `selectCloud`, `parseField`, `parseObject`, `selectCredentials`,
`setupCredentialChain` and the ephemeral `Open` are translated function
by function. Theorems about the embedding settle the specification
claims.
-/

namespace AzIdentity

/-- A terraform framework string value (`types.String`): null, unknown, or a
known string. `IsNull` is true only for null; `ValueString` yields the empty
string for null and unknown values. -/
inductive TFString where
  | null
  | unknown
  | value (s : String)
deriving DecidableEq, Repr

def TFString.isNull : TFString → Bool
  | .null => true
  | _ => false

def TFString.valueString : TFString → String
  | .value s => s
  | _ => ""

/-- A terraform framework bool value (`types.Bool`); `ValueBool` yields false
for null and unknown values. -/
inductive TFBool where
  | null
  | unknown
  | value (b : Bool)
deriving DecidableEq, Repr

def TFBool.valueBool : TFBool → Bool
  | .value b => b
  | _ => false

/-- A diagnostic attribute path, as built by `path.Root`, `AtMapKey` and
`AtListIndex`. -/
inductive Path where
  | root (s : String)
  | atMapKey (p : Path) (k : String)
  | atListIndex (p : Path) (i : Nat)
deriving DecidableEq, Repr

inductive Severity where
  | warning
  | error
deriving DecidableEq, Repr

/-- One diagnostic: severity, optional attribute path, summary and detail,
mirroring the terraform-plugin-framework `diag` package. -/
structure Diag where
  severity : Severity
  path : Option Path
  summary : String
  detail : String
deriving DecidableEq, Repr

def attrWarning (p : Path) (summary detail : String) : Diag :=
  ⟨.warning, some p, summary, detail⟩

def attrError (p : Path) (summary detail : String) : Diag :=
  ⟨.error, some p, summary, detail⟩

def errorDiag (summary detail : String) : Diag :=
  ⟨.error, none, summary, detail⟩

/-- `diag.Diagnostics.HasError`: whether the collection holds a diagnostic of
error severity. -/
def hasError (diags : List Diag) : Bool :=
  diags.any fun d => d.severity == .error

/-- The Azure cloud configuration constants of `azcore/cloud`. -/
inductive CloudConfiguration where
  | azureChina
  | azureGovernment
  | azurePublic
deriving DecidableEq, Repr

/-- `selectCloud` from `azidentity_credentials.go`: map the configured cloud
name to a configuration constant; an unrecognized name falls back to
AzurePublic with a warning diagnostic, while the empty string and
"AzurePublic" map to AzurePublic with no diagnostic. -/
def selectCloud (c : String) : CloudConfiguration × Option Diag :=
  if c = "AzureChina" then (.azureChina, none)
  else if c = "AzureGovernment" then (.azureGovernment, none)
  else if c = "" ∨ c = "AzurePublic" then (.azurePublic, none)
  else
    (.azurePublic, some (attrWarning (.root "cloud") "Invalid cloud value"
      ("The provided cloud value '" ++ c ++ "' is not recognized. Falling back to AzurePublic.")))

/-- The reflection metadata of one model struct field: its Go name and the
optional `env` and `missing` struct tags. The `env` tag, comma-separated in
the Go source, is carried here already split into the ordered list of
environment-variable names. -/
structure StructField where
  name : String
  envTag : Option (List String)
  missingTag : Option String
deriving DecidableEq, Repr

/-- The operating system as the provider sees it: `os.LookupEnv` and
`os.ReadFile` (file contents kept as opaque strings). -/
structure OS where
  env : String → Option String
  readFile : String → Except String String

/-- The loop inside `parseField` over the names of the `env` tag:
the first environment variable present wins. -/
def lookupEnvFirst (os : OS) : List String → Option String
  | [] => none
  | e :: rest =>
    match os.env e with
    | some v => some v
    | none => lookupEnvFirst os rest

/-- The tail of `parseField` once no configuration value and no environment
variable supplied the field: the `missing` tag decides between an error
diagnostic, a warning diagnostic, or silence; the field stays empty. -/
def missingFallback (field : StructField) (p : Path) : String × Option Diag :=
  match field.missingTag with
  | some "error" =>
    ("", some (attrError (p.atMapKey field.name) "Missing value"
      "Missing credential configuration. Could not get value from env or config"))
  | some "warn" =>
    ("", some (attrWarning (p.atMapKey field.name) "Missing value"
      "Missing credential configuration. Could not get value from env or config"))
  | _ => ("", none)

/-- `parseField` from `azidentity_credentials.go`: a non-null configuration
value is used verbatim; a null value falls back to the comma-separated
environment variables of the `env` tag, in order; otherwise the `missing`
tag policy applies. Returns the string written to the parsed struct field
and the optional diagnostic. -/
def parseField (os : OS) (inp : TFString) (field : StructField) (p : Path) :
    String × Option Diag :=
  if ¬ inp.isNull then
    (inp.valueString, none)
  else
    match field.envTag with
    | some envs =>
      match lookupEnvFirst os envs with
      | some v => (v, none)
      | none => missingFallback field p
    | none => missingFallback field p

/-- `AzurePipelinesCredentialModel` from `models.go`, generic over the field
type exactly as the Go generic struct is (`types.String` for the model,
`string` for the parsed form). -/
structure AzurePipelinesCredentialModel (T : Type) where
  tenantID : T
  clientID : T
  serviceConnectionID : T
  systemAccessToken : T
deriving DecidableEq, Repr

abbrev APcM := AzurePipelinesCredentialModel TFString

abbrev APcP := AzurePipelinesCredentialModel String

/-- `ClientSecretCredentialModel` from `models.go`. -/
structure ClientSecretCredentialModel (T : Type) where
  tenantID : T
  clientID : T
  clientSecret : T
deriving DecidableEq, Repr

abbrev CScM := ClientSecretCredentialModel TFString

abbrev CScP := ClientSecretCredentialModel String

/-- `ClientCertificateCredentialModel` from `models.go`. -/
structure ClientCertificateCredentialModel (T : Type) where
  tenantID : T
  clientID : T
  certificatePath : T
  certificatePassword : T
deriving DecidableEq, Repr

abbrev CCcM := ClientCertificateCredentialModel TFString

abbrev CCcP := ClientCertificateCredentialModel String

/-- `ManagedIdentityCredentialModel` from `models.go`. -/
structure ManagedIdentityCredentialModel (T : Type) where
  clientID : T
deriving DecidableEq, Repr

abbrev MIcM := ManagedIdentityCredentialModel TFString

abbrev MIcP := ManagedIdentityCredentialModel String

/-- `WorkloadIdentityCredentialModel` from `models.go`. -/
structure WorkloadIdentityCredentialModel (T : Type) where
  tenantID : T
  clientID : T
deriving DecidableEq, Repr

abbrev WIcM := WorkloadIdentityCredentialModel TFString

abbrev WIcP := WorkloadIdentityCredentialModel String

/-- A `types.Object` as `parseObject` sees it: null, unknown, or a known
object carrying the converted model together with the diagnostics the
conversion (`in.As`) produced. -/
inductive TFObject (M : Type) where
  | null
  | unknown
  | obj (model : M) (convDiags : List Diag)
deriving DecidableEq, Repr

def TFObject.convDiags {M : Type} : TFObject M → List Diag
  | .obj _ d => d
  | _ => []

/-- The Go zero value of the azure-pipelines model: all fields null. -/
def APcM.zero : APcM := ⟨.null, .null, .null, .null⟩

def CScM.zero : CScM := ⟨.null, .null, .null⟩

def CCcM.zero : CCcM := ⟨.null, .null, .null, .null⟩

def MIcM.zero : MIcM := ⟨.null⟩

def WIcM.zero : WIcM := ⟨.null, .null⟩

/-- The struct tags of `AzurePipelinesCredentialModel.TenantID`
(env tag "ARM_TENANT_ID,AZURE_TENANT_ID", no missing tag). -/
def apcTenantIDField : StructField :=
  ⟨"TenantID", some ["ARM_TENANT_ID", "AZURE_TENANT_ID"], none⟩

/-- The struct tags of `AzurePipelinesCredentialModel.ClientID`
(env tag "ARM_CLIENT_ID,AZURE_CLIENT_ID", missing tag "warn"). -/
def apcClientIDField : StructField :=
  ⟨"ClientID", some ["ARM_CLIENT_ID", "AZURE_CLIENT_ID"], some "warn"⟩

/-- The struct tags of `AzurePipelinesCredentialModel.ServiceConnectionID`
(env tag "ARM_OIDC_AZURE_SERVICE_CONNECTION_ID,AZURESUBSCRIPTION_SERVICE_CONNECTION_ID",
missing tag "warn"). -/
def apcServiceConnectionIDField : StructField :=
  ⟨"ServiceConnectionID",
    some ["ARM_OIDC_AZURE_SERVICE_CONNECTION_ID", "AZURESUBSCRIPTION_SERVICE_CONNECTION_ID"],
    some "warn"⟩

/-- The struct tags of `AzurePipelinesCredentialModel.SystemAccessToken`
(env tag "ARM_OIDC_REQUEST_TOKEN,SYSTEM_ACCESSTOKEN", missing tag "warn"). -/
def apcSystemAccessTokenField : StructField :=
  ⟨"SystemAccessToken", some ["ARM_OIDC_REQUEST_TOKEN", "SYSTEM_ACCESSTOKEN"], some "warn"⟩

/-- A field of the other model structs: only a `tfsdk` tag, no `env` and no
`missing` tag. -/
def plainField (n : String) : StructField := ⟨n, none, none⟩

/-- The common skeleton of the generic `parseObject`: convert a non-null,
non-unknown object and bail out with nil when the shared diagnostics hold
an error afterwards; otherwise parse every field of the model (the zero
model for null or unknown input) and append the field diagnostics. -/
def parseObjectWith {M P : Type} (zero : M)
    (parseFields : OS → M → Path → P × List Diag)
    (os : OS) (inp : TFObject M) (diags : List Diag) (p : Path) :
    Option P × List Diag :=
  match inp with
  | .obj model conv =>
    let diags1 := diags ++ conv
    if hasError diags1 then (none, diags1)
    else
      let r := parseFields os model p
      (some r.1, diags1 ++ r.2)
  | _ =>
    let r := parseFields os zero p
    (some r.1, diags ++ r.2)

/-- The reflection loop of `parseObject`, unrolled over the fields of
`AzurePipelinesCredentialModel` in declaration order. -/
def parseAPcFields (os : OS) (m : APcM) (p : Path) : APcP × List Diag :=
  let r0 := parseField os m.tenantID apcTenantIDField p
  let r1 := parseField os m.clientID apcClientIDField p
  let r2 := parseField os m.serviceConnectionID apcServiceConnectionIDField p
  let r3 := parseField os m.systemAccessToken apcSystemAccessTokenField p
  (⟨r0.1, r1.1, r2.1, r3.1⟩, r0.2.toList ++ r1.2.toList ++ r2.2.toList ++ r3.2.toList)

def parseCScFields (os : OS) (m : CScM) (p : Path) : CScP × List Diag :=
  let r0 := parseField os m.tenantID (plainField "TenantID") p
  let r1 := parseField os m.clientID (plainField "ClientID") p
  let r2 := parseField os m.clientSecret (plainField "ClientSecret") p
  (⟨r0.1, r1.1, r2.1⟩, r0.2.toList ++ r1.2.toList ++ r2.2.toList)

def parseCCcFields (os : OS) (m : CCcM) (p : Path) : CCcP × List Diag :=
  let r0 := parseField os m.tenantID (plainField "TenantID") p
  let r1 := parseField os m.clientID (plainField "ClientID") p
  let r2 := parseField os m.certificatePath (plainField "CertificatePath") p
  let r3 := parseField os m.certificatePassword (plainField "CertificatePassword") p
  (⟨r0.1, r1.1, r2.1, r3.1⟩, r0.2.toList ++ r1.2.toList ++ r2.2.toList ++ r3.2.toList)

def parseMIcFields (os : OS) (m : MIcM) (p : Path) : MIcP × List Diag :=
  let r0 := parseField os m.clientID (plainField "ClientID") p
  (⟨r0.1⟩, r0.2.toList)

def parseWIcFields (os : OS) (m : WIcM) (p : Path) : WIcP × List Diag :=
  let r0 := parseField os m.tenantID (plainField "TenantID") p
  let r1 := parseField os m.clientID (plainField "ClientID") p
  (⟨r0.1, r1.1⟩, r0.2.toList ++ r1.2.toList)

/-- `parseObject[APcM, APcP]` instantiated at the azure-pipelines model. -/
def parseObjectAPc : OS → TFObject APcM → List Diag → Path → Option APcP × List Diag :=
  parseObjectWith APcM.zero parseAPcFields

def parseObjectCSc : OS → TFObject CScM → List Diag → Path → Option CScP × List Diag :=
  parseObjectWith CScM.zero parseCScFields

def parseObjectCCc : OS → TFObject CCcM → List Diag → Path → Option CCcP × List Diag :=
  parseObjectWith CCcM.zero parseCCcFields

def parseObjectMIc : OS → TFObject MIcM → List Diag → Path → Option MIcP × List Diag :=
  parseObjectWith MIcM.zero parseMIcFields

def parseObjectWIc : OS → TFObject WIcM → List Diag → Path → Option WIcP × List Diag :=
  parseObjectWith WIcM.zero parseWIcFields

/-- An opaque token-provider handle, recording which SDK constructor built it
and the arguments the provider code passed. -/
inductive TokenCredential where
  | environment
  | managedIdentity (id : Option String)
  | azureCLI
  | workloadIdentity (ids : Option (String × String))
  | azurePipelines (tenantID clientID serviceConnectionID systemAccessToken : String)
  | clientSecret (tenantID clientID clientSecret : String)
  | clientCertificate (tenantID clientID : String) (cert key : Nat)
deriving DecidableEq, Repr

/-- `policy.TokenRequestOptions` restricted to the fields the provider sets. -/
structure TokenRequestOptions where
  claims : String
  scopes : List String
  enableCAE : Bool
deriving DecidableEq, Repr

/-- `azcore.AccessToken` restricted to the field the provider reads. -/
structure AccessToken where
  token : String
deriving DecidableEq, Repr

/-- The azidentity SDK constructors as oracles: each returns `none` on
success (the provider then records the handle built from the arguments it
passed) or `some e` with the error text. Certificates and keys are opaque
numbers, file contents opaque strings. -/
structure Sdk where
  newEnvironmentCredential : CloudConfiguration → Option String
  newManagedIdentityCredential : CloudConfiguration → Option String → Option String
  newAzureCLICredential : Option String
  newWorkloadIdentityCredential : CloudConfiguration → Option (String × String) → Option String
  newAzurePipelinesCredential :
    CloudConfiguration → String → String → String → String → Option String
  newClientSecretCredential : CloudConfiguration → String → String → String → Option String
  parseCertificates : String → String → Except String (Nat × Nat)
  newClientCertificateCredential :
    CloudConfiguration → String → String → Nat → Nat → Option String
  newChainedTokenCredential : List TokenCredential → Option String

/-- `AzIdentityProviderModel` from `models.go`, with the credentials list
already converted to its `[]types.String` elements. -/
structure AzIdentityProviderModel where
  cloud : TFString
  credentials : List TFString
  azurePipelinesCredential : TFObject APcM
  clientSecretCredential : TFObject CScM
  clientCertificateCredential : TFObject CCcM
  managedIdentityCredential : TFObject MIcM
  workloadIdentityCredential : TFObject WIcM

/-- The `switch c` statement inside the loop of `selectCredentials`: given the
credential-type name `c`, its list index `i` and the diagnostics accumulated
so far, produce the values of the loop variables `cred` and `err` after the
switch, together with the updated diagnostics. In the azure-pipelines branch
the fourth constructor argument mirrors source line 140, which assigns
`props.ServiceConnectionID` (not `props.SystemAccessToken`) to
`systemAccessToken`. -/
def credBranch (os : OS) (sdk : Sdk) (cloud : CloudConfiguration)
    (data : AzIdentityProviderModel) (i : Nat) (c : String) (diags : List Diag) :
    Option TokenCredential × Option String × List Diag :=
  let p := Path.root c
  if c = "environment_credential" then
    match sdk.newEnvironmentCredential cloud with
    | some e => (none, some e, diags)
    | none => (some .environment, none, diags)
  else if c = "managed_identity_credential" then
    match parseObjectMIc os data.managedIdentityCredential diags p with
    | (some props, diags1) =>
      match sdk.newManagedIdentityCredential cloud (some props.clientID) with
      | some e => (none, some e, diags1)
      | none => (some (.managedIdentity (some props.clientID)), none, diags1)
    | (none, diags1) =>
      match sdk.newManagedIdentityCredential cloud none with
      | some e => (none, some e, diags1)
      | none => (some (.managedIdentity none), none, diags1)
  else if c = "azure_cli_credential" then
    match sdk.newAzureCLICredential with
    | some e => (none, some e, diags)
    | none => (some .azureCLI, none, diags)
  else if c = "workload_identity_credential" then
    match parseObjectWIc os data.workloadIdentityCredential diags p with
    | (some props, diags1) =>
      match sdk.newWorkloadIdentityCredential cloud (some (props.clientID, props.tenantID)) with
      | some e => (none, some e, diags1)
      | none => (some (.workloadIdentity (some (props.clientID, props.tenantID))), none, diags1)
    | (none, diags1) =>
      match sdk.newWorkloadIdentityCredential cloud none with
      | some e => (none, some e, diags1)
      | none => (some (.workloadIdentity none), none, diags1)
  else if c = "azure_pipelines_credential" then
    let pr := parseObjectAPc os data.azurePipelinesCredential diags p
    let diags1 := pr.2
    let tenantID := match pr.1 with | some props => props.tenantID | none => ""
    let clientID := match pr.1 with | some props => props.clientID | none => ""
    let serviceConnectionID := match pr.1 with | some props => props.serviceConnectionID | none => ""
    let systemAccessToken := match pr.1 with | some props => props.serviceConnectionID | none => ""
    match sdk.newAzurePipelinesCredential cloud tenantID clientID serviceConnectionID systemAccessToken with
    | some e => (none, some e, diags1)
    | none =>
      (some (.azurePipelines tenantID clientID serviceConnectionID systemAccessToken), none, diags1)
  else if c = "client_secret_credential" then
    match parseObjectCSc os data.clientSecretCredential diags p with
    | (some props, diags1) =>
      match sdk.newClientSecretCredential cloud props.tenantID props.clientID props.clientSecret with
      | some e => (none, some e, diags1)
      | none => (some (.clientSecret props.tenantID props.clientID props.clientSecret), none, diags1)
    | (none, diags1) =>
      (none, none, diags1 ++ [attrError p "Missing configuration"
        "Missing client_secret_credential configuration. Provide the necessary details or disable credential"])
  else if c = "client_certificate_credential" then
    match parseObjectCCc os data.clientCertificateCredential diags p with
    | (some props, diags1) =>
      match os.readFile props.certificatePath with
      | .error e2 =>
        (none, none, diags1 ++ [attrError (Path.root c) "Failed to read certificate file" e2])
      | .ok certData =>
        match sdk.parseCertificates certData props.certificatePassword with
        | .error e2 =>
          (none, none, diags1 ++ [attrError p "Failed to parse certificate file" e2])
        | .ok (cert, key) =>
          match sdk.newClientCertificateCredential cloud props.tenantID props.clientID cert key with
          | some e => (none, some e, diags1)
          | none => (some (.clientCertificate props.tenantID props.clientID cert key), none, diags1)
    | (none, diags1) =>
      (none, none, diags1 ++ [attrError (Path.root "client_certificate_credential") "Missing configuration"
        "Missing client_certificate_credential configuration. Provide the necessary details or disable credential"])
  else
    (none, none, diags ++ [attrError ((Path.root "credentials").atListIndex i) "Invalid Credential type"
      ("Unknown type '" ++ c ++ "'. Check if you accidentally misspelled the credential type.")])

/-- One full iteration of the `selectCredentials` loop: run the switch, then
turn a non-nil `err` into a warning diagnostic at the entry's list index
(appending no credential), and otherwise return the credential the branch
built, if any. -/
def credStep (os : OS) (sdk : Sdk) (cloud : CloudConfiguration)
    (data : AzIdentityProviderModel) (i : Nat) (credential : TFString) (diags : List Diag) :
    Option TokenCredential × List Diag :=
  let c := credential.valueString
  match credBranch os sdk cloud data i c diags with
  | (_, some e, diags1) =>
    (none, diags1 ++ [attrWarning ((Path.root "credentials").atListIndex i)
      ("Error setting up credential '" ++ c ++ "'.") e])
  | (cred, none, diags1) => (cred, diags1)

/-- The loop of `selectCredentials` over the requested credential types,
carrying the list index and the accumulated diagnostics, appending each
successfully constructed credential to the output in iteration order. -/
def selectCredentialsAux (os : OS) (sdk : Sdk) (cloud : CloudConfiguration)
    (data : AzIdentityProviderModel) :
    Nat → List TFString → List Diag → List TokenCredential × List Diag
  | _, [], diags => ([], diags)
  | i, credential :: rest, diags =>
    let r := credStep os sdk cloud data i credential diags
    let r2 := selectCredentialsAux os sdk cloud data (i + 1) rest r.2
    (r.1.toList ++ r2.1, r2.2)

/-- `selectCredentials` from `azidentity_credentials.go`: process the
user-ordered credential-type list starting from an empty chain and empty
diagnostics. -/
def selectCredentials (os : OS) (sdk : Sdk) (credentialTypes : List TFString)
    (data : AzIdentityProviderModel) (cloud : CloudConfiguration) :
    List TokenCredential × List Diag :=
  selectCredentialsAux os sdk cloud data 0 credentialTypes []

/-- The per-entry outcome trace of the `selectCredentials` loop: one entry
per requested credential type, in list order, holding the handle the entry
contributed (`some`) or `none` when the entry failed or was skipped. -/
def credTrace (os : OS) (sdk : Sdk) (cloud : CloudConfiguration)
    (data : AzIdentityProviderModel) :
    Nat → List TFString → List Diag → List (Option TokenCredential)
  | _, [], _ => []
  | i, credential :: rest, diags =>
    let r := credStep os sdk cloud data i credential diags
    r.1 :: credTrace os sdk cloud data (i + 1) rest r.2

/-- `azidentity.ChainedTokenCredential`: the ordered chain of sources. -/
structure ChainedTokenCredential where
  sources : List TokenCredential
deriving DecidableEq, Repr

/-- `setupCredentialChain` from `azidentity_credentials.go`: select the
cloud, build the chain from the requested credential types, and wrap it in
a chained token credential, adding an error diagnostic when the chained
constructor rejects the list. -/
def setupCredentialChain (os : OS) (sdk : Sdk) (data : AzIdentityProviderModel) :
    Option ChainedTokenCredential × List Diag :=
  let cloudPair := selectCloud data.cloud.valueString
  let diags := cloudPair.2.toList
  let selPair := selectCredentials os sdk data.credentials data cloudPair.1
  let diags1 := diags ++ selPair.2
  match sdk.newChainedTokenCredential selPair.1 with
  | some e => (none, diags1 ++ [errorDiag "Failed setting up credential chain" e])
  | none => (some ⟨selPair.1⟩, diags1)

/-- `TokenEphemeralResourceModel` from `ephemeral_token.go`, with the scopes
set already converted to its element list. -/
structure TokenEphemeralResourceModel where
  token : TFString
  claims : TFString
  enableCAE : TFBool
  scopes : List TFString
deriving DecidableEq, Repr

/-- `data.Scopes.ElementsAs(ctx, &scopes, false)`: every element must be a
known string; a null or unknown element is a conversion error. -/
def elementsAsStrings : List TFString → Except Diag (List String)
  | [] => .ok []
  | .value s :: rest => (elementsAsStrings rest).map (fun l => s :: l)
  | _ :: _ => .error (errorDiag "Value Conversion Error" "Scopes set holds a null or unknown element")

/-- The outcome of one ephemeral `Open`: the diagnostics added to the
response and the result model, when one was set. -/
structure OpenResponse where
  diagnostics : List Diag
  result : Option TokenEphemeralResourceModel
deriving DecidableEq, Repr

/-- `TokenEphemeralResource.Open` from `ephemeral_token.go`: parse the scopes
set, call the chain with the configured claims, scopes and CAE flag
(`getToken` is the chained credential's `GetToken`), and on success set the
token output; an SDK error becomes an error diagnostic and no result is
set. -/
def TokenEphemeralResource.Open
    (getToken : TokenRequestOptions → Except String AccessToken)
    (config : TokenEphemeralResourceModel) : OpenResponse :=
  match elementsAsStrings config.scopes with
  | .error d => ⟨[d], none⟩
  | .ok scopes =>
    match getToken ⟨config.claims.valueString, scopes, config.enableCAE.valueBool⟩ with
    | .error e => ⟨[errorDiag "Unable to get token" e], none⟩
    | .ok tok => ⟨[], some ⟨.value tok.token, config.claims, config.enableCAE, config.scopes⟩⟩

/-- The credential-type names the `switch` of `selectCredentials`
recognizes. -/
def knownCredentialTypes : List String :=
  ["environment_credential", "managed_identity_credential", "azure_cli_credential",
   "workload_identity_credential", "azure_pipelines_credential",
   "client_secret_credential", "client_certificate_credential"]

/-- A concrete operating system with no environment variables and no
readable files. -/
def osEmpty : OS :=
  ⟨fun _ => none, fun _ => .error "open : no such file or directory"⟩

/-- A concrete operating system where only SYSTEM_ACCESSTOKEN is set. -/
def osPipelineEnv : OS :=
  ⟨fun n => if n = "SYSTEM_ACCESSTOKEN" then some "tok" else none,
   fun _ => .error "open : no such file or directory"⟩

/-- A concrete SDK whose constructors all succeed. -/
def sdkOK : Sdk :=
  ⟨fun _ => none, fun _ _ => none, none, fun _ _ => none, fun _ _ _ _ _ => none,
   fun _ _ _ _ => none, fun _ _ => .ok (0, 0), fun _ _ _ _ _ => none, fun _ => none⟩

/-- A concrete SDK whose constructors all fail with the text "ctor failed". -/
def sdkFail : Sdk :=
  ⟨fun _ => some "ctor failed", fun _ _ => some "ctor failed", some "ctor failed",
   fun _ _ => some "ctor failed", fun _ _ _ _ _ => some "ctor failed",
   fun _ _ _ _ => some "ctor failed", fun _ _ => .error "ctor failed",
   fun _ _ _ _ _ => some "ctor failed", fun _ => some "ctor failed"⟩

/-- A provider configuration with no requested credentials and no blocks. -/
def dataEmpty : AzIdentityProviderModel :=
  ⟨.null, [], .null, .null, .null, .null, .null⟩

/-- A configuration requesting only the azure-pipelines credential, its block
fully supplied with four distinct values. -/
def dataPipelines : AzIdentityProviderModel :=
  ⟨.null, [.value "azure_pipelines_credential"],
   .obj ⟨.value "tid", .value "cid", .value "scid", .value "sat"⟩ [], .null, .null, .null, .null⟩

/-- A configuration requesting only the client-certificate credential with
its required block absent. -/
def dataCertAbsent : AzIdentityProviderModel :=
  ⟨.null, [.value "client_certificate_credential"], .null, .null, .null, .null, .null⟩

/-- A configuration whose client-secret block is present and valid. -/
def dataSecretBlock : AzIdentityProviderModel :=
  ⟨.null, [.value "client_secret_credential"], .null,
   .obj ⟨.value "t", .value "c", .value "s"⟩ [], .null, .null, .null⟩

/-- A concrete pre-existing error diagnostic. -/
def errDiagW : Diag := errorDiag "previous failure" "boom"

/-- A concrete chain oracle that always produces the token "tokval". -/
def getTokenOK : TokenRequestOptions → Except String AccessToken :=
  fun _ => .ok ⟨"tokval"⟩

/-- A concrete chain oracle that always fails with "auth failed". -/
def getTokenFail : TokenRequestOptions → Except String AccessToken :=
  fun _ => .error "auth failed"

/-- A concrete ephemeral-resource configuration. -/
def tokenConfig : TokenEphemeralResourceModel :=
  ⟨.null, .value "cl", .value true, [.value "scope1"]⟩

end AzIdentity

namespace AzIdentity

lemma lookupEnvFirst_eq_find (os : OS) (l : List String) :
    lookupEnvFirst os l = (l.find? fun n => (os.env n).isSome).bind os.env := by
  induction l with
  | nil => simp [lookupEnvFirst]
  | cons e rest ih =>
    simp only [lookupEnvFirst, List.find?]
    cases h : os.env e <;> simp [h, ih]

lemma lookupEnvFirst_eq_none (os : OS) (l : List String)
    (h : ∀ n ∈ l, os.env n = none) : lookupEnvFirst os l = none := by
  induction l with
  | nil => simp [lookupEnvFirst]
  | cons e rest ih =>
    simp only [lookupEnvFirst]
    rw [h e (by simp)]
    exact ih fun n hn => h n (by simp [hn])

lemma hasError_append (a b : List Diag) :
    hasError (a ++ b) = (hasError a || hasError b) := by
  simp [hasError, List.any_append]

lemma parseField_null (os : OS) (field : StructField) (p : Path) :
    parseField os .null field p
      = match field.envTag with
        | some envs =>
          match lookupEnvFirst os envs with
          | some v => (v, none)
          | none => missingFallback field p
        | none => missingFallback field p := by
  simp [parseField, TFString.isNull]

lemma selectCredentialsAux_fst_eq_trace (os : OS) (sdk : Sdk) (cloud : CloudConfiguration)
    (data : AzIdentityProviderModel) (l : List TFString) :
    ∀ i diags, (selectCredentialsAux os sdk cloud data i l diags).1
      = (credTrace os sdk cloud data i l diags).filterMap id := by
  induction l with
  | nil => intro i diags; simp [selectCredentialsAux, credTrace]
  | cons c rest ih =>
    intro i diags
    simp only [selectCredentialsAux, credTrace, List.filterMap_cons]
    cases h : (credStep os sdk cloud data i c diags).1 <;> simp [h, ih]

lemma credTrace_length (os : OS) (sdk : Sdk) (cloud : CloudConfiguration)
    (data : AzIdentityProviderModel) (l : List TFString) :
    ∀ i diags, (credTrace os sdk cloud data i l diags).length = l.length := by
  induction l with
  | nil => intro i diags; simp [credTrace]
  | cons c rest ih => intro i diags; simp [credTrace, ih]

lemma parseObjectCSc_null (os : OS) (diags : List Diag) (p : Path) :
    parseObjectCSc os .null diags p = (some ⟨"", "", ""⟩, diags) := by
  simp [parseObjectCSc, parseObjectWith, parseCScFields, parseField, CScM.zero, plainField,
    missingFallback, TFString.isNull]

lemma parseObjectCCc_null (os : OS) (diags : List Diag) (p : Path) :
    parseObjectCCc os .null diags p = (some ⟨"", "", "", ""⟩, diags) := by
  simp [parseObjectCCc, parseObjectWith, parseCCcFields, parseField, CCcM.zero, plainField,
    missingFallback, TFString.isNull]

end AzIdentity

namespace AzIdentity

/-- C1: for every configuration whose credentials list names credential types
in order, the chain returned by selectCredentials is exactly the ordered
filtering of the per-entry outcome trace: it contains the successfully
constructed token-provider handles in the same relative order as the
user-specified list, with failed or skipped entries omitted, and the trace
has one outcome per requested entry. -/
theorem selectCredentials_preserves_order (os : OS) (sdk : Sdk)
    (credentialTypes : List TFString) (data : AzIdentityProviderModel)
    (cloud : CloudConfiguration) :
    (selectCredentials os sdk credentialTypes data cloud).1
        = (credTrace os sdk cloud data 0 credentialTypes []).filterMap id
    ∧ (credTrace os sdk cloud data 0 credentialTypes []).length
        = credentialTypes.length :=
  ⟨selectCredentialsAux_fst_eq_trace os sdk cloud data credentialTypes 0 [],
   credTrace_length os sdk cloud data credentialTypes 0 []⟩

/-- C2: parseField uses a non-null configuration value verbatim without
consulting any environment; for a null value it consults the comma-separated
environment variables of the env tag in order and uses the first one present
with no diagnostic; otherwise the missing tag policy applies: "error" yields
an error diagnostic, "warn" a warning diagnostic, and no tag leaves the field
silently empty. -/
theorem parseField_spec (os : OS) (field : StructField) (p : Path) :
    (∀ inp : TFString, inp.isNull = false →
      ∀ os' : OS, parseField os' inp field p = (inp.valueString, none))
    ∧ (∀ names e v, field.envTag = some names →
        names.find? (fun n => (os.env n).isSome) = some e →
        os.env e = some v →
        parseField os .null field p = (v, none))
    ∧ ((∀ names, field.envTag = some names →
          ∀ n ∈ names, os.env n = none) →
        (field.missingTag = some "error" →
          parseField os .null field p
            = ("", some (attrError (p.atMapKey field.name) "Missing value"
                "Missing credential configuration. Could not get value from env or config")))
        ∧ (field.missingTag = some "warn" →
          parseField os .null field p
            = ("", some (attrWarning (p.atMapKey field.name) "Missing value"
                "Missing credential configuration. Could not get value from env or config")))
        ∧ (field.missingTag = none →
          parseField os .null field p = ("", none))) := by
  refine ⟨fun inp h os' => ?_, fun names e v h1 h2 h3 => ?_, fun hall => ?_⟩
  · simp [parseField, h]
  · rw [parseField_null, h1]
    have hv : lookupEnvFirst os names = some v := by
      rw [lookupEnvFirst_eq_find, h2]; exact h3
    simp [hv]
  · have hcore : parseField os .null field p = missingFallback field p := by
      rw [parseField_null]
      cases henv : field.envTag with
      | none => rfl
      | some names =>
        have hn : lookupEnvFirst os names = none :=
          lookupEnvFirst_eq_none os _ (hall names henv)
        simp [hn]
    refine ⟨fun h => ?_, fun h => ?_, fun h => ?_⟩ <;>
      rw [hcore] <;> simp [missingFallback, h]

/-- Witness for C2: with SYSTEM_ACCESSTOKEN set and ARM_OIDC_REQUEST_TOKEN
unset, a null system_access_token field resolves to the environment value. -/
theorem parseField_spec_witness :
    parseField osPipelineEnv .null apcSystemAccessTokenField
        (Path.root "azure_pipelines_credential") = ("tok", none) :=
  (parseField_spec osPipelineEnv apcSystemAccessTokenField
      (Path.root "azure_pipelines_credential")).2.1
    ["ARM_OIDC_REQUEST_TOKEN", "SYSTEM_ACCESSTOKEN"] "SYSTEM_ACCESSTOKEN" "tok"
    rfl (by decide) (by decide)

/-- C3 (evaluation at the failing input): with a fully supplied
azure_pipelines_credential block whose SystemAccessToken is "sat" and whose
ServiceConnectionID is "scid", the block parses correctly, yet the handle
passed to NewAzurePipelinesCredential carries "scid" — the
ServiceConnectionID value — as its systemAccessToken argument, not the
parsed SystemAccessToken field. -/
theorem azurePipelines_systemAccessToken_bug :
    (parseObjectAPc osEmpty dataPipelines.azurePipelinesCredential []
        (Path.root "azure_pipelines_credential")).1
      = some ⟨"tid", "cid", "scid", "sat"⟩
    ∧ (selectCredentials osEmpty sdkOK dataPipelines.credentials dataPipelines .azurePublic).1
      = [TokenCredential.azurePipelines "tid" "cid" "scid" "scid"] := by
  constructor <;> rfl

end AzIdentity

namespace AzIdentity

/-- C4 (counterexample): with client_certificate_credential requested and its
block absent, selectCredentials appends no chain entry but records an error
diagnostic (the empty certificate path fails to read), not a warning: the
claim that a warning diagnostic is recorded is false at this input. -/
theorem clientCertificate_absent_block_error_not_warning :
    (selectCredentials osEmpty sdkOK dataCertAbsent.credentials dataCertAbsent .azurePublic).1 = []
    ∧ (selectCredentials osEmpty sdkOK dataCertAbsent.credentials dataCertAbsent .azurePublic).2
        = [attrError (Path.root "client_certificate_credential")
            "Failed to read certificate file" "open : no such file or directory"]
    ∧ ∀ d ∈ (selectCredentials osEmpty sdkOK dataCertAbsent.credentials dataCertAbsent .azurePublic).2,
        d.severity ≠ Severity.warning := by
  refine ⟨rfl, rfl, ?_⟩
  decide

/-- C4 (amended): a client_secret_credential or client_certificate_credential
whose required parameter block is absent is parsed to empty-string
parameters; the entry contributes no chain entry when the construction
fails, but the recorded diagnostic is a warning for client_secret_credential
(from the constructor error) and an error for client_certificate_credential
(from the failed certificate file read), not a warning in both cases. -/
theorem absent_block_no_chain_entry (os : OS) (sdk : Sdk) (cloud : CloudConfiguration)
    (data : AzIdentityProviderModel) (i : Nat) (diags : List Diag) :
    (data.clientSecretCredential = .null →
      ∀ e, sdk.newClientSecretCredential cloud "" "" "" = some e →
        credStep os sdk cloud data i (.value "client_secret_credential") diags
          = (none, diags ++ [attrWarning ((Path.root "credentials").atListIndex i)
              "Error setting up credential 'client_secret_credential'." e]))
    ∧ (data.clientCertificateCredential = .null →
      ∀ e2, os.readFile "" = .error e2 →
        credStep os sdk cloud data i (.value "client_certificate_credential") diags
          = (none, diags ++ [attrError (Path.root "client_certificate_credential")
              "Failed to read certificate file" e2])) := by
  constructor
  · intro h e he
    simp [credStep, credBranch, TFString.valueString, h, parseObjectCSc_null, he]
  · intro h e2 he2
    simp [credStep, credBranch, TFString.valueString, h, parseObjectCCc_null, he2]

/-- Witness for C4 (amended) at a concrete configuration: an absent
client_secret_credential block with a rejecting constructor yields exactly
one warning and no chain entry. -/
theorem absent_block_no_chain_entry_witness :
    credStep osEmpty sdkFail .azurePublic dataCertAbsent 0 (.value "client_secret_credential") []
      = (none, [attrWarning ((Path.root "credentials").atListIndex 0)
          "Error setting up credential 'client_secret_credential'." "ctor failed"]) :=
  (absent_block_no_chain_entry osEmpty sdkFail .azurePublic dataCertAbsent 0 []).1
    rfl "ctor failed" rfl

/-- C5: if the chained-credential constructor rejects the assembled list (as
it does for an empty list), setupCredentialChain returns no chain and its
diagnostics contain an error; and an ephemeral token read whose GetToken
call fails surfaces exactly an error diagnostic and sets no result, never an
empty token string. -/
theorem empty_chain_no_silent_token (os : OS) (sdk : Sdk) (data : AzIdentityProviderModel) :
    (∀ e, sdk.newChainedTokenCredential
          (selectCredentials os sdk data.credentials data
            (selectCloud data.cloud.valueString).1).1 = some e →
        (setupCredentialChain os sdk data).1 = none
        ∧ hasError (setupCredentialChain os sdk data).2 = true)
    ∧ (∀ (getToken : TokenRequestOptions → Except String AccessToken)
        (config : TokenEphemeralResourceModel) (scopes : List String) (e : String),
        elementsAsStrings config.scopes = .ok scopes →
        getToken ⟨config.claims.valueString, scopes, config.enableCAE.valueBool⟩ = .error e →
        TokenEphemeralResource.Open getToken config
          = ⟨[errorDiag "Unable to get token" e], none⟩) := by
  constructor
  · intro e he
    simp only [setupCredentialChain, he]
    simp [hasError_append, hasError, errorDiag]
  · intro getToken config scopes e h1 h2
    simp [TokenEphemeralResource.Open, h1, h2]

/-- Witness for C5: the empty configuration with a rejecting chained
constructor yields no chain and an error diagnostic, and a failing token
read yields the error diagnostic with no result. -/
theorem empty_chain_no_silent_token_witness :
    ((setupCredentialChain osEmpty sdkFail dataEmpty).1 = none
      ∧ hasError (setupCredentialChain osEmpty sdkFail dataEmpty).2 = true)
    ∧ TokenEphemeralResource.Open getTokenFail tokenConfig
        = ⟨[errorDiag "Unable to get token" "auth failed"], none⟩ :=
  ⟨(empty_chain_no_silent_token osEmpty sdkFail dataEmpty).1 "ctor failed" rfl,
   (empty_chain_no_silent_token osEmpty sdkFail dataEmpty).2 getTokenFail tokenConfig
     ["scope1"] "auth failed" rfl rfl⟩

/-- C6 (counterexample): the empty cloud name yields the public-cloud default
with no diagnostic at all, so the claim that a warning is emitted for the
empty string is false. -/
theorem selectCloud_empty_silent : selectCloud "" = (.azurePublic, none) := by decide

/-- C6 (amended): every non-empty cloud name other than AzureChina,
AzureGovernment and AzurePublic yields the public-cloud default together
with the warning diagnostic, while the empty string yields the public-cloud
default silently, with no diagnostic. -/
theorem selectCloud_fallback_spec (c : String) :
    (c ≠ "" → c ≠ "AzureChina" → c ≠ "AzureGovernment" → c ≠ "AzurePublic" →
      selectCloud c
        = (.azurePublic, some (attrWarning (.root "cloud") "Invalid cloud value"
            ("The provided cloud value '" ++ c ++ "' is not recognized. Falling back to AzurePublic."))))
    ∧ selectCloud "" = (.azurePublic, none) := by
  constructor
  · intro h0 h1 h2 h3
    simp [selectCloud, h0, h1, h2, h3]
  · decide

/-- Witness for C6 (amended) at the unrecognized name "AzureLocal". -/
theorem selectCloud_fallback_spec_witness :
    selectCloud "AzureLocal"
      = (.azurePublic, some (attrWarning (.root "cloud") "Invalid cloud value"
          "The provided cloud value 'AzureLocal' is not recognized. Falling back to AzurePublic.")) :=
  (selectCloud_fallback_spec "AzureLocal").1 (by decide) (by decide) (by decide) (by decide)

/-- C7: every non-empty cloud name that is none of the recognized names
AzureChina, AzureGovernment and AzurePublic yields the public-cloud default
configuration together with exactly one diagnostic, which is a warning and
not an error. -/
theorem selectCloud_unrecognized_exactly_one_warning (c : String)
    (h0 : c ≠ "") (h1 : c ≠ "AzureChina") (h2 : c ≠ "AzureGovernment") (h3 : c ≠ "AzurePublic") :
    (selectCloud c).1 = .azurePublic
    ∧ (selectCloud c).2
        = some (attrWarning (.root "cloud") "Invalid cloud value"
            ("The provided cloud value '" ++ c ++ "' is not recognized. Falling back to AzurePublic."))
    ∧ ∀ d, (selectCloud c).2 = some d → d.severity = .warning := by
  refine ⟨?_, ?_, ?_⟩ <;> simp [selectCloud, h0, h1, h2, h3, attrWarning]

/-- Witness for C7 at the unrecognized name "foo". -/
theorem selectCloud_unrecognized_exactly_one_warning_witness :
    (selectCloud "foo").1 = .azurePublic
    ∧ (selectCloud "foo").2
        = some (attrWarning (.root "cloud") "Invalid cloud value"
            "The provided cloud value 'foo' is not recognized. Falling back to AzurePublic.")
    ∧ ∀ d, (selectCloud "foo").2 = some d → d.severity = .warning :=
  selectCloud_unrecognized_exactly_one_warning "foo"
    (by decide) (by decide) (by decide) (by decide)

end AzIdentity

namespace AzIdentity

/-- C8: whenever the switch of selectCredentials ends an iteration with a
non-nil SDK constructor error, the loop records a warning diagnostic at that
entry's index under the credentials attribute, appends no chain entry, and
the chain continues exactly as the processing of the remaining entries; an
unrecognized credential-type name instead ends its iteration with an error
diagnostic at that index and no constructor error. -/
theorem credential_failure_isolated (os : OS) (sdk : Sdk) (cloud : CloudConfiguration)
    (data : AzIdentityProviderModel) (i : Nat) (credential : TFString)
    (diags : List Diag) (rest : List TFString) :
    (∀ cred e diags1,
      credBranch os sdk cloud data i credential.valueString diags = (cred, some e, diags1) →
        credStep os sdk cloud data i credential diags
          = (none, diags1 ++ [attrWarning ((Path.root "credentials").atListIndex i)
              ("Error setting up credential '" ++ credential.valueString ++ "'.") e])
        ∧ (selectCredentialsAux os sdk cloud data i (credential :: rest) diags).1
          = (selectCredentialsAux os sdk cloud data (i + 1) rest
              (diags1 ++ [attrWarning ((Path.root "credentials").atListIndex i)
                ("Error setting up credential '" ++ credential.valueString ++ "'.") e])).1)
    ∧ (credential.valueString ∉ knownCredentialTypes →
        credBranch os sdk cloud data i credential.valueString diags
          = (none, none, diags ++ [attrError ((Path.root "credentials").atListIndex i)
              "Invalid Credential type"
              ("Unknown type '" ++ credential.valueString
                ++ "'. Check if you accidentally misspelled the credential type.")])) := by
  constructor
  · intro cred e diags1 hb
    have hstep : credStep os sdk cloud data i credential diags
        = (none, diags1 ++ [attrWarning ((Path.root "credentials").atListIndex i)
            ("Error setting up credential '" ++ credential.valueString ++ "'.") e]) := by
      simp [credStep, hb]
    refine ⟨hstep, ?_⟩
    simp [selectCredentialsAux, hstep]
  · intro hmem
    simp only [knownCredentialTypes, List.mem_cons, List.mem_singleton, not_or] at hmem
    obtain ⟨h1, h2, h3, h4, h5, h6, h7⟩ := hmem
    simp [credBranch, h1, h2, h3, h4, h5, h6, h7]

/-- Witness for C8: a failing environment-credential constructor yields the
warning at index 0 and no chain entry, and the unrecognized name
"bogus_credential" yields the error diagnostic at index 1. -/
theorem credential_failure_isolated_witness :
    credStep osEmpty sdkFail .azurePublic dataEmpty 0 (.value "environment_credential") []
      = (none, [] ++ [attrWarning ((Path.root "credentials").atListIndex 0)
          ("Error setting up credential '" ++ "environment_credential" ++ "'.") "ctor failed"])
    ∧ credBranch osEmpty sdkFail .azurePublic dataEmpty 1 "bogus_credential" []
      = (none, none, [] ++ [attrError ((Path.root "credentials").atListIndex 1)
          "Invalid Credential type"
          ("Unknown type '" ++ "bogus_credential"
            ++ "'. Check if you accidentally misspelled the credential type.")]) :=
  ⟨((credential_failure_isolated osEmpty sdkFail .azurePublic dataEmpty 0
      (.value "environment_credential") [] []).1 none "ctor failed" [] rfl).1,
   (credential_failure_isolated osEmpty sdkFail .azurePublic dataEmpty 1
      (.value "bogus_credential") [] []).2 (by decide)⟩

/-- C9: each ephemeral Open is a pure function of the request configuration:
once the scopes set converts, the chain's GetToken is called with exactly
the configured claims string, scopes and CAE flag; on success the result is
the model with the token set to the returned token string, and on error
exactly one error diagnostic is added and no result is set. -/
theorem open_reads_config_and_forwards
    (getToken : TokenRequestOptions → Except String AccessToken)
    (config : TokenEphemeralResourceModel) (scopes : List String)
    (h : elementsAsStrings config.scopes = .ok scopes) :
    (∀ tok, getToken ⟨config.claims.valueString, scopes, config.enableCAE.valueBool⟩ = .ok tok →
      TokenEphemeralResource.Open getToken config
        = ⟨[], some ⟨.value tok.token, config.claims, config.enableCAE, config.scopes⟩⟩)
    ∧ (∀ e, getToken ⟨config.claims.valueString, scopes, config.enableCAE.valueBool⟩ = .error e →
      TokenEphemeralResource.Open getToken config
        = ⟨[errorDiag "Unable to get token" e], none⟩) := by
  constructor <;> intro x hx <;> simp [TokenEphemeralResource.Open, h, hx]

/-- Witness for C9: a successful GetToken call sets the token output to the
returned token string. -/
theorem open_reads_config_and_forwards_witness :
    TokenEphemeralResource.Open getTokenOK tokenConfig
      = ⟨[], some ⟨.value "tokval", .value "cl", .value true, [.value "scope1"]⟩⟩ :=
  (open_reads_config_and_forwards getTokenOK tokenConfig ["scope1"] rfl).1 ⟨"tokval"⟩ rfl

/-- C10: parseObject returns nil exactly when the input block is a present
(non-null, non-unknown) object and the shared diagnostics, after appending
the conversion diagnostics, contain an error; a null block therefore yields
a non-nil parsed struct whose fields are each resolved by parseField from
the environment or left empty; and an error recorded before a later
credential makes parseObject return nil for that credential even with a
valid block, so the client_secret branch runs its missing-configuration
path and calls no constructor. -/
theorem parseObject_nil_iff (os : OS) (diags : List Diag) (p : Path) :
    (∀ inp : TFObject APcM,
      ((parseObjectAPc os inp diags p).1 = none
        ↔ ∃ m conv, inp = .obj m conv ∧ hasError (diags ++ conv) = true))
    ∧ ((parseObjectAPc os .null diags p).1
        = some ⟨(parseField os .null apcTenantIDField p).1,
                (parseField os .null apcClientIDField p).1,
                (parseField os .null apcServiceConnectionIDField p).1,
                (parseField os .null apcSystemAccessTokenField p).1⟩)
    ∧ (∀ (sdk : Sdk) (cloud : CloudConfiguration) (data : AzIdentityProviderModel)
        (i : Nat) (m : CScM) (conv : List Diag),
        hasError diags = true →
        data.clientSecretCredential = .obj m conv →
        credBranch os sdk cloud data i "client_secret_credential" diags
          = (none, none, (diags ++ conv) ++ [attrError (Path.root "client_secret_credential")
              "Missing configuration"
              "Missing client_secret_credential configuration. Provide the necessary details or disable credential"])) := by
  refine ⟨?_, ?_, ?_⟩
  · intro inp
    cases inp with
    | null => simp [parseObjectAPc, parseObjectWith]
    | unknown => simp [parseObjectAPc, parseObjectWith]
    | obj m conv =>
      by_cases hc : hasError (diags ++ conv) = true
      · simp [parseObjectAPc, parseObjectWith, hc]
        exact ⟨m, conv, ⟨rfl, rfl⟩, hc⟩
      · simp [parseObjectAPc, parseObjectWith, hc]
  · simp [parseObjectAPc, parseObjectWith, parseAPcFields, APcM.zero]
  · intro sdk cloud data i m conv hd hblock
    have hcsc : parseObjectCSc os data.clientSecretCredential diags
        (Path.root "client_secret_credential") = (none, diags ++ conv) := by
      rw [hblock]
      simp [parseObjectCSc, parseObjectWith, hasError_append, hd]
    simp [credBranch, hcsc]

/-- Witness for C10: a conversion-stage error makes parseObject return nil;
a null block parses to the all-empty struct under an empty environment; and
a pre-existing error diagnostic sends a valid client_secret block down the
missing-configuration path. -/
theorem parseObject_nil_iff_witness :
    (parseObjectAPc osEmpty (.obj APcM.zero [errDiagW]) [] (Path.root "azure_pipelines_credential")).1 = none
    ∧ (parseObjectAPc osEmpty .null [] (Path.root "azure_pipelines_credential")).1
        = some ⟨"", "", "", ""⟩
    ∧ credBranch osEmpty sdkOK .azurePublic dataSecretBlock 0 "client_secret_credential" [errDiagW]
        = (none, none, ([errDiagW] ++ []) ++ [attrError (Path.root "client_secret_credential")
            "Missing configuration"
            "Missing client_secret_credential configuration. Provide the necessary details or disable credential"]) :=
  ⟨((parseObject_nil_iff osEmpty [] (Path.root "azure_pipelines_credential")).1
      (.obj APcM.zero [errDiagW])).mpr ⟨APcM.zero, [errDiagW], rfl, by decide⟩,
   (parseObject_nil_iff osEmpty [] (Path.root "azure_pipelines_credential")).2.1,
   (parseObject_nil_iff osEmpty [errDiagW] (Path.root "client_secret_credential")).2.2
     sdkOK .azurePublic dataSecretBlock 0 ⟨.value "t", .value "c", .value "s"⟩ []
     (by decide) rfl⟩

end AzIdentity
